import Mathlib

/-!
Verification of the clip-generation and assembly pipeline of the `vhg` backend
(`backend/services/video_generator.py`, `backend/services/video_assembler.py`,
`backend/services/vision_director.py`, `backend/models.py`).

The Python code is shallowly embedded: every external effect (HTTP call to the
Wan video API, ffmpeg invocation, file system, database row) is represented by
an explicit environment value fed to a pure Lean function whose control flow
mirrors the Python source line by line.  Exceptions are modelled with `Except`,
`try/except` blocks with pattern matches on the error value.
-/

/-! ## Data model (`backend/models.py`) -/

/-- Clip.status column: "pending", "generating", "completed", "failed". -/
inductive ClipStatus where
  | pending
  | generating
  | completed
  | failed
deriving DecidableEq, Repr, BEq

/-- AdGeneration.status column: "pending", "generating", "assembling",
"completed", "failed". -/
inductive GenStatus where
  | pending
  | generating
  | assembling
  | completed
  | failed
deriving DecidableEq, Repr, BEq

def ClipStatus.isCompleted : ClipStatus → Bool
  | .completed => true
  | _ => false

/-- One row of the `clips` table, restricted to the fields the pipeline reads
or writes.  `onDisk` models `os.path.exists(local_path)` for the recorded
local path: whether the file the row points at actually exists on disk. -/
structure ClipRec where
  id : String
  sequence_index : Nat
  role : String
  prompt : String
  local_path : Option String
  onDisk : Bool
  status : ClipStatus
deriving DecidableEq, Repr

/-- One scene of the script dict: `scene.get("id", ...)`, `scene.get("role", "")`,
`scene.get("prompt", "")` — each key may be absent, hence `Option`/defaults. -/
structure Scene where
  id : Option Nat
  role : String
  prompt : String
deriving DecidableEq, Repr

/-- The script dict passed to `generate_all_clips`. -/
structure Script where
  product_name : String
  master_description : String
  tone : String
  scenes : List Scene
deriving Repr

/-! ## Wan API model (`video_generator.py`, `_call_wan_api` / `_poll_wan_task`)

The network is modelled by an environment describing what each request would
answer; the Lean functions reproduce the Python control flow over it. -/

/-- What the submission POST (video_generator.py lines 308-384) runs into. -/
inductive SubmitResult where
  /-- `requests.exceptions.ConnectionError`; `dnsFailure` = its message contains
  "getaddrinfo failed" or "Failed to resolve" (lines 394-405). -/
  | connectionError (dnsFailure : Bool)
  /-- `requests.exceptions.Timeout` on the submission request (line 406). -/
  | requestTimeout
  /-- `response.status_code != 200` (lines 315-329), including the 401 branch. -/
  | httpError (status : Nat)
  /-- Body has `code != "Success"` (lines 334-358). -/
  | apiError (code : String)
  /-- No task id, but `output.video_url` present (synchronous shortcut,
  lines 369-382); the flag tells whether the direct download returns 200. -/
  | syncVideo (downloadOk : Bool)
  /-- Neither a task id nor a video url in the response (line 384). -/
  | noTaskIdNoUrl
  /-- Async task submitted; polling follows (lines 386-392). -/
  | taskId (tid : String)
deriving DecidableEq, Repr

/-- What one polling iteration of `_poll_wan_task` observes (lines 447-523). -/
inductive PollEvent where
  /-- Query response status ≠ 200 → raise (line 471). -/
  | httpError (status : Nat)
  /-- Body `code != "Success"` → raise (line 477). -/
  | apiError
  /-- Terminal SUCCEEDED status; `hasUrl` = a video url is present (raise at
  line 501 otherwise), `downloadOk` = the download returns 200 (raise at
  line 507 otherwise). -/
  | succeeded (hasUrl : Bool) (downloadOk : Bool)
  /-- Terminal FAILED/ERROR status → raise "Task failed" (line 519). -/
  | failed
  /-- PENDING/RUNNING/UNKNOWN: sleep 5 s and poll again (line 522). -/
  | processing
deriving DecidableEq, Repr

/-- Whether this poll iteration raises inside the `try` block; every raise is
caught by the `except` at line 525 which retries until the attempt ceiling. -/
def PollEvent.raises : PollEvent → Bool
  | .processing => false
  | .succeeded hasUrl downloadOk => !(hasUrl && downloadOk)
  | _ => true

/-- A local media file produced for a clip: its path and whether the file is
actually present on disk. -/
structure ClipFile where
  path : String
  onDisk : Bool
deriving DecidableEq, Repr

/-- Environment of one `_call_wan_api` invocation. -/
structure WanEnv where
  /-- `self.wan_api_key = os.getenv("WAN_API_KEY")`. -/
  apiKey : Option String
  /-- Whether the ffmpeg subprocess in `_create_placeholder_video` succeeds. -/
  ffmpegOk : Bool
  /-- Outcome of the submission POST. -/
  submit : SubmitResult
  /-- Outcome of the i-th polling iteration. -/
  poll : Nat → PollEvent

/-- `os.path.join(self.clips_dir, f"{clip_id}.mp4")`. -/
def clip_path (clipId : String) : String := "clips/" ++ clipId ++ ".mp4"

/-- `_create_placeholder_video` (lines 533-558): runs ffmpeg to synthesize a
short clip; the bare `except` swallows any ffmpeg failure and returns the path
anyway, so on failure the returned path names a file that does not exist. -/
def create_placeholder_video (ffmpegOk : Bool) (clipId : String) : ClipFile :=
  { path := clip_path clipId, onDisk := ffmpegOk }

/-- How `_poll_wan_task` can terminate abnormally. -/
inductive PollError where
  /-- Fell out of the while loop: "Task ... did not complete within timeout
  period" (line 531). -/
  | timeoutExpired
  /-- Re-raise at the attempt ceiling: "Task polling failed after 120
  attempts" (line 527). -/
  | pollingFailed
deriving DecidableEq, Repr

/-- `max_attempts = 120  # 10 minutes max (120 * 5 seconds)` (line 426). -/
def max_attempts : Nat := 120

instance {ε α : Type} [DecidableEq ε] [DecidableEq α] : DecidableEq (Except ε α) := fun x y =>
  match x, y with
  | .ok a, .ok b =>
      if h : a = b then .isTrue (by rw [h]) else .isFalse (by simp [h])
  | .error a, .error b =>
      if h : a = b then .isTrue (by rw [h]) else .isFalse (by simp [h])
  | .ok _, .error _ => .isFalse (by simp)
  | .error _, .ok _ => .isFalse (by simp)

/-- Accounting of one `_poll_wan_task` run: its outcome, how many status
requests it issued, and how many 5-second sleeps it performed. -/
structure PollRun where
  result : Except PollError ClipFile
  requests : Nat
  sleeps : Nat
deriving DecidableEq, Repr

/-- The `while attempt < max_attempts` loop of `_poll_wan_task` (lines
447-531), starting at `attempt` with `fuel = max_attempts - attempt`
iterations left.  Each iteration issues one status request; a raise inside the
`try` is caught at line 525 and retried after a 5 s sleep unless
`attempt >= max_attempts - 1`; a still-processing status sleeps 5 s and
retries; falling out of the loop raises the timeout error of line 531. -/
def poll_go (ev : Nat → PollEvent) (clipId : String) : Nat → Nat → PollRun
  | _, 0 =>
      { result := .error .timeoutExpired, requests := 0, sleeps := 0 }
  | attempt, fuel + 1 =>
      if ev attempt = PollEvent.succeeded true true then
        { result := .ok { path := clip_path clipId, onDisk := true },
          requests := 1, sleeps := 0 }
      else if (ev attempt).raises then
        if max_attempts - 1 ≤ attempt then
          { result := .error .pollingFailed, requests := 1, sleeps := 0 }
        else
          let r := poll_go ev clipId (attempt + 1) fuel
          { result := r.result, requests := r.requests + 1, sleeps := r.sleeps + 1 }
      else
        let r := poll_go ev clipId (attempt + 1) fuel
        { result := r.result, requests := r.requests + 1, sleeps := r.sleeps + 1 }

/-- `_poll_wan_task` (lines 418-531): poll from attempt 0 with the full
attempt budget. -/
def poll_wan_task (ev : Nat → PollEvent) (clipId : String) : PollRun :=
  poll_go ev clipId 0 max_attempts

/-! ## `_call_wan_api` (lines 253-416) -/

/-- Exceptions that can escape the `try` block of `_call_wan_api`
(lines 265-392).  `dnsMsg` on `other` records whether `str(e)` contains
"getaddrinfo failed" or "Failed to resolve" (tested at line 411). -/
inductive WanExc where
  | connectionError (dnsFailure : Bool)
  | requestTimeout
  | other (dnsMsg : Bool)
deriving DecidableEq, Repr

/-- The `try` body of `_call_wan_api` (lines 265-392), after the api-key check:
submit the job and either download a synchronous result, poll an async task,
or raise. -/
def call_wan_api_try (env : WanEnv) (clipId : String) : Except WanExc ClipFile :=
  match env.submit with
  | .connectionError dns => .error (.connectionError dns)
  | .requestTimeout => .error .requestTimeout
  | .httpError _ => .error (.other false)
  | .apiError _ => .error (.other false)
  | .noTaskIdNoUrl => .error (.other false)
  | .syncVideo downloadOk =>
      if downloadOk then .ok { path := clip_path clipId, onDisk := true }
      else .error (.other false)
  | .taskId _ =>
      match (poll_wan_task env.poll clipId).result with
      | .ok f => .ok f
      | .error _ => .error (.other false)

/-- The only exception `_call_wan_api` lets escape: the re-`raise` of a
non-DNS `requests.exceptions.ConnectionError` at line 405. -/
inductive WanRaise where
  | connectionError
deriving DecidableEq, Repr

/-- `_call_wan_api` (lines 253-416).  With no API key it short-circuits to a
placeholder clip (lines 259-262).  Otherwise the `except` clauses apply: a
DNS-failure `ConnectionError` falls back to a placeholder, any other
`ConnectionError` is re-raised (lines 394-405); a request `Timeout` falls back
to a placeholder (lines 406-408); every other exception falls back to a
placeholder in both branches of the DNS-message test (lines 409-416). -/
def call_wan_api (env : WanEnv) (clipId : String) : Except WanRaise ClipFile :=
  if env.apiKey.isNone then
    .ok (create_placeholder_video env.ffmpegOk clipId)
  else
    match call_wan_api_try env clipId with
    | .ok f => .ok f
    | .error (.connectionError dns) =>
        if dns then .ok (create_placeholder_video env.ffmpegOk clipId)
        else .error .connectionError
    | .error .requestTimeout => .ok (create_placeholder_video env.ffmpegOk clipId)
    | .error (.other dnsMsg) =>
        if dnsMsg then .ok (create_placeholder_video env.ffmpegOk clipId)
        else .ok (create_placeholder_video env.ffmpegOk clipId)

/-! ## `_generate_clip` (lines 189-251) -/

/-- `str(e)` for the one exception `_call_wan_api` can raise — a `requests`
`ConnectionError` whose text is the connection-failure description — contains
neither "placeholder" nor "WARNING" (the substrings tested at lines 235
and 248). -/
def raise_msg_placeholder_or_warning : WanRaise → Bool
  | .connectionError => false

/-- Result of one `_generate_clip` worker: the final clip row, and whether the
worker re-raised the exception past its own boundary (line 249). -/
structure ClipOutcome where
  clip : ClipRec
  raised : Bool
deriving DecidableEq, Repr

/-- `_generate_clip` (lines 189-251): set the row to "generating", call
`_call_wan_api`; on success record the path and mark "completed" (lines
219-224, with no existence check on the returned path); on an exception, mark
"completed" if the message mentions a placeholder and the recorded path
exists, otherwise mark "failed", and re-raise unless the message mentioned a
placeholder (lines 227-249). -/
def generate_clip (env : WanEnv) (clip : ClipRec) : ClipOutcome :=
  let c1 : ClipRec := { clip with status := .generating }
  match call_wan_api env c1.id with
  | .ok f =>
      { clip :=
          { c1 with
            local_path := some f.path
            onDisk := f.onDisk
            status := .completed }
        raised := false }
  | .error e =>
      if raise_msg_placeholder_or_warning e then
        match c1.local_path with
        | some _ =>
            if c1.onDisk then
              { clip := { c1 with status := .completed }, raised := false }
            else
              { clip := { c1 with status := .failed }, raised := false }
        | none => { clip := { c1 with status := .failed }, raised := false }
      else
        { clip := { c1 with status := .failed }, raised := true }

/-! ## `generate_all_clips` (lines 19-182) -/

/-- Environment of one `generate_all_clips` run. -/
structure GenEnv where
  /-- Whether the product image file exists under `uploads/` (line 67). -/
  imageExists : Bool
  /-- The Wan-API environment seen by the k-th scheduled clip task. -/
  wan : Nat → WanEnv

/-- Model of `str(uuid.uuid4())` for the k-th clip record created in one run:
a fresh identifier per record (line 101). -/
def clip_uuid (k : Nat) : String := "uuid-" ++ toString k

/-- The clip-record creation loop (lines 94-109): one row per scene, in
"pending" status, with `sequence_index = scene.get("id", len(clips) + 1)`;
`k` is `len(clips)` so far. -/
def create_clip_records_from (k : Nat) : List Scene → List ClipRec
  | [] => []
  | scene :: rest =>
      { id := clip_uuid k
        sequence_index := scene.id.getD (k + 1)
        role := scene.role
        prompt := scene.prompt
        local_path := none
        onDisk := false
        status := .pending } :: create_clip_records_from (k + 1) rest

def create_clip_records (scenes : List Scene) : List ClipRec :=
  create_clip_records_from 0 scenes

/-- Run the scheduled tasks (line 131, `asyncio.gather`): the k-th task is
`_generate_clip_with_semaphore(semaphore, clip, ...)`, which runs
`_generate_clip` under the admission gate. -/
def run_tasks (wan : Nat → WanEnv) (k : Nat) : List (ClipRec × Scene) → List ClipOutcome
  | [] => []
  | (c, _s) :: rest => generate_clip (wan k) c :: run_tasks wan (k + 1) rest

/-- The observable outcome of one `generate_all_clips` run. -/
structure GenResult where
  /-- Final committed `AdGeneration.status`. -/
  status : GenStatus
  /-- Final `AdGeneration.final_video_url`. -/
  final_video_url : Option String
  /-- The clip rows of this generation after all tasks resolved. -/
  clips : List ClipRec
  /-- How many clip-generation tasks were scheduled (line 126-129). -/
  tasksScheduled : Nat
  /-- Whether `VideoAssembler.assemble_video` was invoked. -/
  assemblerInvoked : Bool
deriving DecidableEq, Repr

/-- SQL `ORDER BY sequence_index` on the "completed" clips of the generation
(lines 147-150 and video_assembler.py lines 24-27), modelled as a stable sort. -/
def seq_le (a b : ClipRec) : Prop := a.sequence_index ≤ b.sequence_index

instance : DecidableRel seq_le := fun a b => Nat.decLe a.sequence_index b.sequence_index

instance : IsTotal ClipRec seq_le := ⟨fun a b => Nat.le_total a.sequence_index b.sequence_index⟩

instance : IsTrans ClipRec seq_le := ⟨fun _ _ _ h h2 => Nat.le_trans h h2⟩

def completed_by_seq (clips : List ClipRec) : List ClipRec :=
  List.insertionSort seq_le (clips.filter (fun c => c.status.isCompleted))

/-- `generate_all_clips` (lines 19-182).  The run sets the generation to
"generating", resolves and checks the product image (raising into the outer
`except`, which commits "failed", if it is missing, lines 67-77), requires a
non-empty scene list (line 87), then — `DEBUG MODE` — truncates the scene
list to its first element (line 92), creates the clip records, schedules one
semaphore-guarded task per (clip, scene) pair of the again-truncated zip
(lines 126-129), and joins.  If any task re-raised, `asyncio.gather`
propagates it to the outer `except`: "failed".  Otherwise the completed-clip
count is compared against 1 (line 141, not against the scene count): if at
least 1, the code sets "completed" in the session and, when the first
completed clip has a recorded path, evaluates `shutil.copy` — but `shutil` is
never imported in video_generator.py, so that statement raises `NameError`
and the outer `except` commits "failed".  When the count is 0 it commits
"failed" (line 171).  The assembler invocation is commented out
(lines 161-168), so `assemblerInvoked` is false on every path. -/
def generate_all_clips (env : GenEnv) (script : Script) : GenResult :=
  if !env.imageExists then
    { status := .failed, final_video_url := none, clips := []
      tasksScheduled := 0, assemblerInvoked := false }
  else if script.scenes.isEmpty then
    { status := .failed, final_video_url := none, clips := []
      tasksScheduled := 0, assemblerInvoked := false }
  else
    let scenes := script.scenes.take 1
    let clips := create_clip_records scenes
    let pairs := (clips.take 1).zip (scenes.take 1)
    let outcomes := run_tasks env.wan 0 pairs
    let finalClips := outcomes.map (fun o => o.clip)
    if outcomes.any (fun o => o.raised) then
      { status := .failed, final_video_url := none, clips := finalClips
        tasksScheduled := pairs.length, assemblerInvoked := false }
    else
      let completedCount := (finalClips.filter (fun c => c.status.isCompleted)).length
      if 1 ≤ completedCount then
        match (completed_by_seq finalClips).head? with
        | some first =>
            match first.local_path with
            | some _ =>
                { status := .failed, final_video_url := none, clips := finalClips
                  tasksScheduled := pairs.length, assemblerInvoked := false }
            | none =>
                { status := .completed, final_video_url := none, clips := finalClips
                  tasksScheduled := pairs.length, assemblerInvoked := false }
        | none =>
            { status := .completed, final_video_url := none, clips := finalClips
              tasksScheduled := pairs.length, assemblerInvoked := false }
      else
        { status := .failed, final_video_url := none, clips := finalClips
          tasksScheduled := pairs.length, assemblerInvoked := false }

/-! ## `VideoAssembler.assemble_video` (video_assembler.py lines 13-149) -/

/-- Which external ffmpeg invocations succeed during one assembly run. -/
structure AsmEnv where
  /-- `_concatenate_clips` ffmpeg exit status (lines 104-106). -/
  concatOk : Bool
  /-- `_normalize_audio` ffmpeg exit status (lines 119-123). -/
  loudnormOk : Bool
  /-- `_normalize_color` ffmpeg exit status (lines 136-140). -/
  colorOk : Bool
deriving DecidableEq, Repr

/-- The observable outcome of one `assemble_video` run. -/
structure AsmResult where
  status : GenStatus
  final_video_url : Option String
  /-- Sequence indices of the clips written to the concat list, in file
  order (lines 36-41). -/
  concat_list : List Nat
  /-- The loudness-normalization step fell back to a plain file copy. -/
  audio_copied : Bool
  /-- The color-grading step fell back to a plain file copy. -/
  color_copied : Bool
  /-- Temp files and per-clip files were deleted (lines 62-70). -/
  cleanup_ran : Bool
deriving DecidableEq, Repr

/-- `assemble_video` (lines 13-86), for a generation row that exists: query
the generation's "completed" clips ordered by `sequence_index`; raise (and
commit "failed") unless exactly 12 (lines 29-34); write the concat list,
skipping clips whose recorded path is null or names a missing file (lines
38-41); concatenate — an ffmpeg failure raises, and the `except` commits
"failed" (lines 104-106, 72-84); normalize audio then color, each degrading
to a plain copy on ffmpeg failure (lines 119-123, 136-140); record the final
video url, commit "completed" and clean up (lines 55-70).
`concat_list_of` is the concat file contents (lines 36-41): the ordered
completed clips, skipping rows whose recorded path is null or whose file does
not exist. -/
def concat_list_of (clips : List ClipRec) : List Nat :=
  ((completed_by_seq clips).filter (fun c => c.local_path.isSome && c.onDisk)).map
    (fun c => c.sequence_index)

def assemble_video (env : AsmEnv) (adId : String) (clips : List ClipRec) : AsmResult :=
  if (completed_by_seq clips).length ≠ 12 then
    { status := .failed, final_video_url := none, concat_list := []
      audio_copied := false, color_copied := false, cleanup_ran := false }
  else if !env.concatOk then
    { status := .failed, final_video_url := none, concat_list := concat_list_of clips
      audio_copied := false, color_copied := false, cleanup_ran := false }
  else
    { status := .completed
      final_video_url := some ("/api/videos/" ++ adId ++ "_final.mp4")
      concat_list := concat_list_of clips
      audio_copied := !env.loudnormOk
      color_copied := !env.colorOk
      cleanup_ran := true }

/-! ## `VisionDirector` (vision_director.py) -/

/-- Environment of one `analyze_and_script` call. -/
structure VisionEnv where
  /-- `os.getenv("OPENAI_API_KEY")`. -/
  openai_key : Option String
  /-- `os.getenv("GEMINI_API_KEY")`. -/
  gemini_key : Option String
  /-- Contents of `cache/scripts/{image_hash}.json` when that file exists
  (lines 44-50). -/
  cached_script : Option Script
  /-- What `_analyze_with_gemini` would return or raise. -/
  gemini_result : Except String Script
  /-- What `_analyze_with_openai` would return or raise. -/
  openai_result : Except String Script

/-- `VisionDirector.__init__` (lines 15-39): a client is initialized iff the
corresponding key is present and non-blank (`key and key.strip()`); we model
client construction itself as succeeding. -/
def client_init (key : Option String) : Bool :=
  match key with
  | none => false
  | some k => !(k.trim == "")

inductive VisionError where
  /-- "No vision API key configured. Please set GEMINI_API_KEY or
  OPENAI_API_KEY" (line 62). -/
  | noApiKey
  | upstream (msg : String)
deriving DecidableEq, Repr

/-- `analyze_and_script` (lines 41-69): return the cached script when the
cache file exists — before any credential check; otherwise use Gemini if its
client was initialized, else OpenAI, else raise. -/
def analyze_and_script (env : VisionEnv) : Except VisionError Script :=
  match env.cached_script with
  | some s => .ok s
  | none =>
      if client_init env.gemini_key then
        env.gemini_result.mapError (fun m => VisionError.upstream m)
      else if client_init env.openai_key then
        env.openai_result.mapError (fun m => VisionError.upstream m)
      else
        .error .noApiKey

/-! ## The admission gate (`asyncio.Semaphore(3)`, video_generator.py
lines 114-131 and 184-187)

Each scheduled task runs `_generate_clip_with_semaphore`: it awaits the
semaphore, runs `_generate_clip` (the job submission and polling) while
holding it, and releases it on exit.  We model the scheduler as a transition
system over the phases of the scheduled tasks; the semaphore's counter is
`semaphore_size` minus the number of holders, and an acquire is enabled only
while that counter is positive. -/

/-- `semaphore = asyncio.Semaphore(3)  # Max 3 concurrent generations`
(line 115). -/
def semaphore_size : Nat := 3

/-- Phase of one scheduled clip task. -/
inductive TaskPhase where
  /-- Created by `asyncio.gather` but not yet running. -/
  | notStarted
  /-- Inside `async with semaphore`, waiting to acquire. -/
  | waiting
  /-- Holding the semaphore: its Wan job is in flight. -/
  | inFlight
  /-- Released the semaphore and finished. -/
  | done
deriving DecidableEq, Repr

/-- Number of tasks whose Wan job is simultaneously in flight. -/
def inFlightCount (s : List TaskPhase) : Nat :=
  s.countP (fun p => p == TaskPhase.inFlight)

/-- One cooperative scheduling step of the batch. -/
inductive SemStep : List TaskPhase → List TaskPhase → Prop where
  /-- A task starts running and reaches the `async with semaphore` line. -/
  | start (s : List TaskPhase) (i : Nat) (h : s[i]? = some .notStarted) :
      SemStep s (s.set i .waiting)
  /-- A waiting task acquires the gate — enabled only while fewer than
  `semaphore_size` tasks hold it. -/
  | acquire (s : List TaskPhase) (i : Nat) (h : s[i]? = some .waiting)
      (hgate : inFlightCount s < semaphore_size) :
      SemStep s (s.set i .inFlight)
  /-- A task finishes `_generate_clip` and releases the gate. -/
  | release (s : List TaskPhase) (i : Nat) (h : s[i]? = some .inFlight) :
      SemStep s (s.set i .done)

/-- States reachable by the batch of `n` scheduled tasks. -/
inductive SemReachable : List TaskPhase → Prop where
  | init (n : Nat) : SemReachable (List.replicate n .notStarted)
  | step {s t : List TaskPhase} : SemReachable s → SemStep s t → SemReachable t

/-! ## Theorems -/

theorem poll_go_requests_le (ev : Nat → PollEvent) (clipId : String) :
    ∀ (fuel attempt : Nat), (poll_go ev clipId attempt fuel).requests ≤ fuel := by
  intro fuel
  induction fuel with
  | zero => intro attempt; simp [poll_go]
  | succ f ih =>
      intro attempt
      simp only [poll_go]
      split
      · simp
      · split
        · split
          · simp
          · simpa using Nat.succ_le_succ (ih (attempt + 1))
        · simpa using Nat.succ_le_succ (ih (attempt + 1))

theorem poll_go_all_processing (ev : Nat → PollEvent) (clipId : String) :
    ∀ (fuel attempt : Nat),
      (∀ i, attempt ≤ i → i < attempt + fuel → ev i = .processing) →
      poll_go ev clipId attempt fuel =
        { result := .error .timeoutExpired, requests := fuel, sleeps := fuel } := by
  intro fuel
  induction fuel with
  | zero => intro attempt _; rfl
  | succ f ih =>
      intro attempt h
      have hev : ev attempt = .processing := h attempt (Nat.le_refl _) (by omega)
      have hrec := ih (attempt + 1) (fun i h1 h2 => h i (by omega) (by omega))
      simp [poll_go, hev, PollEvent.raises, hrec]

/-- C5: the polling loop issues at most `max_attempts = 120` status requests,
and when the job reports neither success nor failure within that ceiling
(every iteration observes a still-processing status) it terminates by raising
the timeout error of line 531, after exactly 120 requests separated by 120
five-second sleeps (the fixed 5 s interval of line 522: 120 × 5 s = the
10-minute ceiling). -/
theorem poll_bounded_and_timeout (ev : Nat → PollEvent) (clipId : String) :
    (poll_wan_task ev clipId).requests ≤ max_attempts ∧
    ((∀ i, i < max_attempts → ev i = .processing) →
      poll_wan_task ev clipId =
        { result := .error .timeoutExpired, requests := max_attempts,
          sleeps := max_attempts }) := by
  constructor
  · exact poll_go_requests_le ev clipId max_attempts 0
  · intro h
    exact poll_go_all_processing ev clipId max_attempts 0
      (fun i _ h2 => h i (by omega))

theorem poll_bounded_and_timeout_witness :
    (poll_wan_task (fun _ => PollEvent.processing) "clip").requests ≤ max_attempts ∧
    poll_wan_task (fun _ => PollEvent.processing) "clip" =
      { result := .error .timeoutExpired, requests := max_attempts,
        sleeps := max_attempts } :=
  ⟨(poll_bounded_and_timeout (fun _ => PollEvent.processing) "clip").1,
   (poll_bounded_and_timeout (fun _ => PollEvent.processing) "clip").2
     (fun _ _ => rfl)⟩

/-- C4: with no WAN_API_KEY configured, `_call_wan_api` skips the external
submission entirely (the outcome does not depend on what the network would
have answered), produces a local placeholder clip, and the worker treats that
as success: the clip row ends "completed" with the placeholder's local path
recorded and nothing is re-raised. -/
theorem no_credential_placeholder_success (env : WanEnv) (clip : ClipRec)
    (h : env.apiKey = none) :
    (generate_clip env clip).clip.status = .completed ∧
    (generate_clip env clip).clip.local_path = some (clip_path clip.id) ∧
    (generate_clip env clip).raised = false ∧
    ∀ s : SubmitResult,
      generate_clip { env with submit := s } clip = generate_clip env clip := by
  refine ⟨?_, ?_, ?_, ?_⟩ <;>
    simp [generate_clip, call_wan_api, h, create_placeholder_video, clip_path]

def wan_env_nokey : WanEnv :=
  { apiKey := none, ffmpegOk := true, submit := .noTaskIdNoUrl,
    poll := fun _ => .processing }

def clip_pending : ClipRec :=
  { id := "c1", sequence_index := 1, role := "hook", prompt := "p",
    local_path := none, onDisk := false, status := .pending }

theorem no_credential_placeholder_success_witness :
    wan_env_nokey.apiKey = none ∧
    (generate_clip wan_env_nokey clip_pending).clip.status = .completed ∧
    (generate_clip wan_env_nokey clip_pending).clip.local_path =
      some (clip_path "c1") :=
  ⟨rfl,
   (no_credential_placeholder_success wan_env_nokey clip_pending rfl).1,
   (no_credential_placeholder_success wan_env_nokey clip_pending rfl).2.1⟩

def exceptIsError {ε α : Type} : Except ε α → Bool
  | .error _ => true
  | .ok _ => false

def wan_env_submit_500 : WanEnv :=
  { apiKey := some "key", ffmpegOk := true, submit := .httpError 500,
    poll := fun _ => .processing }

/-- C2 counterexample: with a credential configured, a submission error (the
Wan API answers HTTP 500, so line 329 raises) does NOT leave the clip
"failed": the generic `except` of `_call_wan_api` (lines 409-416) falls back
to a placeholder clip and the worker records it as "completed". -/
theorem submission_error_clip_completed_cex :
    (generate_clip wan_env_submit_500 clip_pending).clip.status = .completed ∧
    (generate_clip wan_env_submit_500 clip_pending).clip.status ≠ .failed ∧
    (generate_clip wan_env_submit_500 clip_pending).clip.local_path =
      some (clip_path "c1") ∧
    (generate_clip wan_env_submit_500 clip_pending).raised = false := by
  decide

/-- The error scenarios of the claim — submission HTTP error, submission-body
error, request timeout, DNS-failure connection error, malformed response,
failed synchronous download, or any polling failure (which covers poll
failures, download errors during polling, and the polling timeout) — all of
which `_call_wan_api` converts into a placeholder fallback. -/
def falls_back_to_placeholder (env : WanEnv) (clipId : String) : Prop :=
  match env.submit with
  | .httpError _ => True
  | .apiError _ => True
  | .noTaskIdNoUrl => True
  | .requestTimeout => True
  | .connectionError dns => dns = true
  | .syncVideo ok => ok = false
  | .taskId _ => exceptIsError (poll_wan_task env.poll clipId).result = true

/-- C2 amended: with a credential configured, a submission error, poll
failure, download error, or polling timeout does not mark the clip "failed":
`_call_wan_api` falls back to a local placeholder clip and the worker records
the clip as "completed" with the placeholder path, re-raising nothing.  The
only exception is a non-DNS `requests.ConnectionError` on submission, which
is re-raised at line 405: that clip is marked "failed" and the exception
propagates past the worker (line 249).  No automatic retry happens in either
case: `_generate_clip` calls `_call_wan_api` exactly once. -/
theorem wan_error_fallback_behavior (env : WanEnv) (clip : ClipRec)
    (hkey : env.apiKey.isSome = true) :
    (falls_back_to_placeholder env clip.id →
      (generate_clip env clip).raised = false ∧
      (generate_clip env clip).clip.status = .completed ∧
      (generate_clip env clip).clip.local_path = some (clip_path clip.id)) ∧
    (env.submit = .connectionError false →
      (generate_clip env clip).raised = true ∧
      (generate_clip env clip).clip.status = .failed) := by
  have hnone : env.apiKey.isNone = false := by
    cases hk : env.apiKey with
    | none => rw [hk] at hkey; simp at hkey
    | some k => rfl
  constructor
  · intro hfb
    cases hsub : env.submit with
    | connectionError dns =>
        rw [falls_back_to_placeholder, hsub] at hfb
        subst hfb
        simp [generate_clip, call_wan_api, call_wan_api_try, hnone, hsub,
          create_placeholder_video]
    | requestTimeout =>
        simp [generate_clip, call_wan_api, call_wan_api_try, hnone, hsub,
          create_placeholder_video]
    | httpError st =>
        simp [generate_clip, call_wan_api, call_wan_api_try, hnone, hsub,
          create_placeholder_video, raise_msg_placeholder_or_warning]
    | apiError code =>
        simp [generate_clip, call_wan_api, call_wan_api_try, hnone, hsub,
          create_placeholder_video]
    | syncVideo ok =>
        rw [falls_back_to_placeholder, hsub] at hfb
        subst hfb
        simp [generate_clip, call_wan_api, call_wan_api_try, hnone, hsub,
          create_placeholder_video]
    | noTaskIdNoUrl =>
        simp [generate_clip, call_wan_api, call_wan_api_try, hnone, hsub,
          create_placeholder_video]
    | taskId tid =>
        rw [falls_back_to_placeholder, hsub] at hfb
        cases hp : (poll_wan_task env.poll clip.id).result with
        | ok f => rw [hp] at hfb; simp [exceptIsError] at hfb
        | error e =>
            simp [generate_clip, call_wan_api, call_wan_api_try, hnone, hsub, hp,
              create_placeholder_video]
  · intro hsub
    simp [generate_clip, call_wan_api, call_wan_api_try, hnone, hsub,
      raise_msg_placeholder_or_warning]

theorem wan_error_fallback_behavior_witness :
    wan_env_submit_500.apiKey.isSome = true ∧
    falls_back_to_placeholder wan_env_submit_500 "c1" ∧
    ((generate_clip wan_env_submit_500 clip_pending).raised = false ∧
     (generate_clip wan_env_submit_500 clip_pending).clip.status = .completed ∧
     (generate_clip wan_env_submit_500 clip_pending).clip.local_path =
       some (clip_path "c1")) :=
  ⟨rfl, trivial,
   (wan_error_fallback_behavior wan_env_submit_500 clip_pending rfl).1 trivial⟩

theorem generate_clip_preserves (env : WanEnv) (c : ClipRec) :
    (generate_clip env c).clip.role = c.role ∧
    (generate_clip env c).clip.prompt = c.prompt ∧
    (generate_clip env c).clip.sequence_index = c.sequence_index := by
  unfold generate_clip
  cases h : call_wan_api env c.id with
  | ok f => simp [h]
  | error e =>
      cases e
      simp [h, raise_msg_placeholder_or_warning]

theorem generate_all_clips_shape (env : GenEnv) (pn md tn : String)
    (s : Scene) (rest : List Scene) (himg : env.imageExists = true) :
    ∃ st : GenStatus,
      generate_all_clips env ⟨pn, md, tn, s :: rest⟩ =
        { status := st
          final_video_url := none
          clips := [(generate_clip (env.wan 0)
            { id := clip_uuid 0, sequence_index := s.id.getD 1, role := s.role
              prompt := s.prompt, local_path := none, onDisk := false
              status := .pending }).clip]
          tasksScheduled := 1
          assemblerInvoked := false } := by
  unfold generate_all_clips
  rw [himg]
  simp only [Bool.not_true, Bool.false_eq_true, if_false, List.isEmpty_cons,
    List.take_succ_cons, List.take_zero, List.take_nil]
  simp only [create_clip_records, create_clip_records_from, List.zip_cons_cons,
    List.zip_nil_right, List.zip_nil_left, run_tasks, List.map_cons, List.map_nil,
    List.length_cons, List.length_nil]
  repeat' split
  all_goals exact ⟨_, rfl⟩

/-- C3: for every script with at least one scene (and a resolvable product
image), `generate_all_clips` creates exactly one clip record — for the first
scene only, with its role, prompt and sequence index — and schedules exactly
one clip-generation task; the remaining scenes never receive clip records
(the `DEBUG MODE` truncations at lines 92 and 128). -/
theorem single_clip_record_created (env : GenEnv) (script : Script)
    (himg : env.imageExists = true) (hs : script.scenes ≠ []) :
    (generate_all_clips env script).clips.length = 1 ∧
    (generate_all_clips env script).tasksScheduled = 1 ∧
    ∀ c ∈ (generate_all_clips env script).clips,
      c.role = (script.scenes.head hs).role ∧
      c.prompt = (script.scenes.head hs).prompt ∧
      c.sequence_index = ((script.scenes.head hs).id).getD 1 := by
  rcases script with ⟨pn, md, tn, scs⟩
  cases scs with
  | nil => exact absurd rfl hs
  | cons s rest =>
      obtain ⟨st, heq⟩ := generate_all_clips_shape env pn md tn s rest himg
      rw [heq]
      refine ⟨rfl, rfl, ?_⟩
      intro c hc
      simp only [List.mem_singleton] at hc
      subst hc
      have hp := generate_clip_preserves (env.wan 0)
        { id := clip_uuid 0, sequence_index := s.id.getD 1, role := s.role
          prompt := s.prompt, local_path := none, onDisk := false
          status := .pending }
      simpa using hp

theorem single_clip_record_created_witness :
    (1 : Nat) = 1 ∧
    (generate_all_clips
      { imageExists := true, wan := fun _ => wan_env_nokey }
      { product_name := "p", master_description := "m", tone := "UGC"
        scenes := [{ id := some 1, role := "hook", prompt := "a" },
                   { id := some 2, role := "CTA", prompt := "b" }] }).clips.length = 1 :=
  ⟨rfl,
   (single_clip_record_created
     { imageExists := true, wan := fun _ => wan_env_nokey }
     { product_name := "p", master_description := "m", tone := "UGC"
       scenes := [{ id := some 1, role := "hook", prompt := "a" },
                  { id := some 2, role := "CTA", prompt := "b" }] }
     rfl (by simp)).1⟩

def dbg_env : GenEnv :=
  { imageExists := true, wan := fun _ => wan_env_nokey }

def dbg_script : Script :=
  { product_name := "p", master_description := "m", tone := "UGC"
    scenes := [{ id := some 1, role := "hook", prompt := "scene one" },
               { id := some 2, role := "CTA", prompt := "scene two" }] }

/-- C1 (code bug): on a 2-scene script whose (single created) clip succeeds,
the claim — and spec §4.2 — demand that the generation be advanced to
"assembling"/"completed" with the assembler invoked only when the completed
count equals the scene count.  The code instead compares the count against 1
(line 141), never invokes the assembler (the call is commented out, lines
161-168), and its success path executes `shutil.copy` although `shutil` is
never imported in video_generator.py, so the `NameError` lands in the outer
`except` and the generation is committed "failed" even though every created
clip is "completed". -/
theorem debug_generate_never_completes_nor_assembles :
    ((generate_all_clips dbg_env dbg_script).clips.all
      (fun c => c.status.isCompleted)) = true ∧
    (generate_all_clips dbg_env dbg_script).clips.length = 1 ∧
    (generate_all_clips dbg_env dbg_script).status = .failed ∧
    (generate_all_clips dbg_env dbg_script).assemblerInvoked = false := by
  decide

/-- C6: in `assemble_video` over a generation with the required 12 completed
clips, a concatenation failure is fatal — the generation is committed
"failed" and no final video reference is recorded — while a failure of the
loudness-normalization step or of the color-grading step is non-fatal: each
degrades to a plain file copy of its input and the pipeline still delivers a
final video and commits "completed". -/
theorem assembler_fatal_concat_nonfatal_normalize (env : AsmEnv) (adId : String)
    (clips : List ClipRec)
    (h12 : (clips.filter (fun c => c.status.isCompleted)).length = 12) :
    (env.concatOk = false →
      (assemble_video env adId clips).status = .failed ∧
      (assemble_video env adId clips).final_video_url = none) ∧
    (env.concatOk = true →
      (assemble_video env adId clips).status = .completed ∧
      (assemble_video env adId clips).final_video_url =
        some ("/api/videos/" ++ adId ++ "_final.mp4") ∧
      (assemble_video env adId clips).audio_copied = !env.loudnormOk ∧
      (assemble_video env adId clips).color_copied = !env.colorOk) := by
  have hlen : (completed_by_seq clips).length = 12 := by
    rw [completed_by_seq, List.length_insertionSort]
    exact h12
  constructor
  · intro hc
    simp [assemble_video, hlen, hc]
  · intro hc
    simp [assemble_video, hlen, hc]

def clips12 : List ClipRec :=
  (List.range 12).map (fun k =>
    { id := "clip-" ++ toString k, sequence_index := k + 1, role := ""
      prompt := "", local_path := some (clip_path ("clip-" ++ toString k))
      onDisk := true, status := .completed })

theorem assembler_fatal_concat_nonfatal_normalize_witness :
    (clips12.filter (fun c => c.status.isCompleted)).length = 12 ∧
    ((assemble_video { concatOk := true, loudnormOk := false, colorOk := true }
        "ad" clips12).status = .completed ∧
     (assemble_video { concatOk := true, loudnormOk := false, colorOk := true }
        "ad" clips12).final_video_url =
       some ("/api/videos/" ++ "ad" ++ "_final.mp4") ∧
     (assemble_video { concatOk := true, loudnormOk := false, colorOk := true }
        "ad" clips12).audio_copied =
       !({ concatOk := true, loudnormOk := false, colorOk := true } : AsmEnv).loudnormOk ∧
     (assemble_video { concatOk := true, loudnormOk := false, colorOk := true }
        "ad" clips12).color_copied =
       !({ concatOk := true, loudnormOk := false, colorOk := true } : AsmEnv).colorOk) :=
  ⟨by decide,
   (assembler_fatal_concat_nonfatal_normalize
     { concatOk := true, loudnormOk := false, colorOk := true } "ad" clips12
     (by decide)).2 rfl⟩

theorem run_tasks_length (wan : Nat → WanEnv) :
    ∀ (k : Nat) (ps : List (ClipRec × Scene)),
      (run_tasks wan k ps).length = ps.length
  | _, [] => rfl
  | k, (c, s) :: rest => by
      simp [run_tasks, run_tasks_length wan (k + 1) rest]

theorem list_pairwise_of_length_le_one {α : Type} (R : α → α → Prop) :
    ∀ (l : List α), l.length ≤ 1 → l.Pairwise R
  | [], _ => List.Pairwise.nil
  | [a], _ => by simp
  | a :: b :: t, h => by simp at h

theorem generate_all_clips_clips_len (env : GenEnv) (script : Script) :
    (generate_all_clips env script).clips.length ≤ 1 := by
  rcases script with ⟨pn, md, tn, scs⟩
  by_cases himg : env.imageExists = true
  · cases scs with
    | nil => simp [generate_all_clips, himg]
    | cons s rest =>
        obtain ⟨st, heq⟩ := generate_all_clips_shape env pn md tn s rest himg
        rw [heq]
        simp
  · have hf : env.imageExists = false := by simpa using himg
    simp [generate_all_clips, hf]

theorem concat_list_sorted_aux (clips : List ClipRec) :
    (concat_list_of clips).Pairwise (· ≤ ·) := by
  have hs : (completed_by_seq clips).Pairwise seq_le :=
    List.sorted_insertionSort seq_le (clips.filter (fun c => c.status.isCompleted))
  have hf := hs.filter (fun c => c.local_path.isSome && c.onDisk)
  rw [concat_list_of, List.pairwise_map]
  exact hf

theorem concat_list_strict_aux (clips : List ClipRec)
    (hne : (clips.map (fun c => c.sequence_index)).Pairwise (· ≠ ·)) :
    (concat_list_of clips).Pairwise (· < ·) := by
  have h1 : clips.Pairwise (fun a b => a.sequence_index ≠ b.sequence_index) :=
    List.pairwise_map.1 hne
  have h2 := h1.filter (fun c => c.status.isCompleted)
  have hperm :
      List.Perm
        (List.insertionSort seq_le (clips.filter (fun c => c.status.isCompleted)))
        (clips.filter (fun c => c.status.isCompleted)) :=
    List.perm_insertionSort seq_le (clips.filter (fun c => c.status.isCompleted))
  have h3 : (completed_by_seq clips).Pairwise
      (fun a b => a.sequence_index ≠ b.sequence_index) := by
    rw [completed_by_seq]
    exact (hperm.pairwise_iff (fun h => Ne.symm h)).2 h2
  have h4 := h3.filter (fun c => c.local_path.isSome && c.onDisk)
  have hle : ((completed_by_seq clips).filter
      (fun c => c.local_path.isSome && c.onDisk)).Pairwise seq_le := by
    rw [completed_by_seq]
    exact (List.sorted_insertionSort seq_le
      (clips.filter (fun c => c.status.isCompleted))).filter
      (fun c => c.local_path.isSome && c.onDisk)
  rw [concat_list_of, List.pairwise_map]
  have hcomb := hle.and h4
  exact hcomb.imp (fun hab => Nat.lt_of_le_of_ne hab.1 hab.2)

/-- C7: the clip records created for one generation carry pairwise-distinct
sequence indices (the run creates at most one record, so uniqueness holds for
every script), and the assembler writes the concat list in ascending
sequence-index order: it is always `≤`-sorted, and whenever the generation's
clip rows carry distinct indices the list is strictly increasing, so the clip
with index i precedes the one with index i+1. -/
theorem sequence_unique_and_concat_ordered (env : GenEnv) (script : Script)
    (aenv : AsmEnv) (adId : String) (clips : List ClipRec) :
    ((generate_all_clips env script).clips.map
      (fun c => c.sequence_index)).Pairwise (· ≠ ·) ∧
    (assemble_video aenv adId clips).concat_list.Pairwise (· ≤ ·) ∧
    ((clips.map (fun c => c.sequence_index)).Pairwise (· ≠ ·) →
      (assemble_video aenv adId clips).concat_list.Pairwise (· < ·)) := by
  refine ⟨?_, ?_, ?_⟩
  · apply list_pairwise_of_length_le_one
    simpa using generate_all_clips_clips_len env script
  · unfold assemble_video
    repeat' split
    · exact List.Pairwise.nil
    · exact concat_list_sorted_aux clips
    · exact concat_list_sorted_aux clips
  · intro hne
    unfold assemble_video
    repeat' split
    · exact List.Pairwise.nil
    · exact concat_list_strict_aux clips hne
    · exact concat_list_strict_aux clips hne

theorem sequence_unique_and_concat_ordered_witness :
    ((generate_all_clips dbg_env dbg_script).clips.map
      (fun c => c.sequence_index)).Pairwise (· ≠ ·) ∧
    (clips12.map (fun c => c.sequence_index)).Pairwise (· ≠ ·) ∧
    (assemble_video { concatOk := true, loudnormOk := true, colorOk := true }
      "ad" clips12).concat_list.Pairwise (· < ·) :=
  ⟨(sequence_unique_and_concat_ordered dbg_env dbg_script
      { concatOk := true, loudnormOk := true, colorOk := true } "ad" clips12).1,
   by decide,
   (sequence_unique_and_concat_ordered dbg_env dbg_script
      { concatOk := true, loudnormOk := true, colorOk := true } "ad" clips12).2.2
     (by decide)⟩

/-- C8 amended: a generation committed "completed" by the assembler always
carries a non-null final video reference, and a clip left "completed" by the
worker always carries a non-null recorded local path — but that path need not
name an existing file (see the counterexample: a placeholder whose ffmpeg
invocation failed is still recorded as a completed clip). -/
theorem completed_implies_references_recorded (env : AsmEnv) (adId : String)
    (clips : List ClipRec) (wenv : WanEnv) (c : ClipRec) :
    ((assemble_video env adId clips).status = .completed →
      ((assemble_video env adId clips).final_video_url).isSome = true) ∧
    ((generate_clip wenv c).clip.status = .completed →
      ((generate_clip wenv c).clip.local_path).isSome = true) := by
  constructor
  · unfold assemble_video
    repeat' split
    · intro h; exact absurd h (by simp)
    · intro h; exact absurd h (by simp)
    · intro _; rfl
  · unfold generate_clip
    cases h : call_wan_api wenv c.id with
    | ok f => intro _; simp [h]
    | error e =>
        cases e
        simp [h, raise_msg_placeholder_or_warning]

theorem completed_implies_references_recorded_witness :
    (assemble_video { concatOk := true, loudnormOk := true, colorOk := true }
        "ad" clips12).status = .completed ∧
    ((assemble_video { concatOk := true, loudnormOk := true, colorOk := true }
        "ad" clips12).final_video_url).isSome = true :=
  ⟨by decide,
   (completed_implies_references_recorded
      { concatOk := true, loudnormOk := true, colorOk := true } "ad" clips12
      wan_env_nokey clip_pending).1 (by decide)⟩

def wan_env_nokey_noffmpeg : WanEnv :=
  { apiKey := none, ffmpegOk := false, submit := .noTaskIdNoUrl,
    poll := fun _ => .processing }

def clips11 : List ClipRec :=
  (List.range 11).map (fun k =>
    { id := "clip-" ++ toString k, sequence_index := k + 2, role := ""
      prompt := "", local_path := some (clip_path ("clip-" ++ toString k))
      onDisk := true, status := .completed })

/-- C8 counterexample: with no credential and a failing ffmpeg, the worker
records the placeholder path and marks the clip "completed" although the file
does not exist (lines 556-558 return the path anyway; lines 219-224 commit
"completed" without an existence check); a generation holding this clip among
its 12 completed clips is still assembled and committed "completed", so a
completed generation can contain a completed clip whose recorded local file
never existed prior to cleanup. -/
theorem completed_clip_missing_file_cex :
    (generate_clip wan_env_nokey_noffmpeg clip_pending).clip.status = .completed ∧
    (generate_clip wan_env_nokey_noffmpeg clip_pending).clip.onDisk = false ∧
    (generate_clip wan_env_nokey_noffmpeg clip_pending).clip.local_path =
      some (clip_path "c1") ∧
    (assemble_video { concatOk := true, loudnormOk := true, colorOk := true } "ad"
      ((generate_clip wan_env_nokey_noffmpeg clip_pending).clip :: clips11)).status =
      .completed := by
  decide

def sample_script : Script :=
  { product_name := "p", master_description := "m", tone := "UGC", scenes := [] }

def vision_env_cached : VisionEnv :=
  { openai_key := none, gemini_key := none, cached_script := some sample_script
    gemini_result := .error "unused", openai_result := .error "unused" }

/-- C9 counterexample: with neither vision credential configured but a cached
script present for the image, `analyze_and_script` returns the cached script
(lines 48-50 run before the credential check of line 62) instead of raising. -/
theorem cached_script_no_credential_cex :
    client_init vision_env_cached.gemini_key = false ∧
    client_init vision_env_cached.openai_key = false ∧
    analyze_and_script vision_env_cached = .ok sample_script :=
  ⟨rfl, rfl, rfl⟩

/-- C9 amended: when neither the Gemini nor the OpenAI client could be
initialized (no credential configured) AND no cached script exists for the
image, `analyze_and_script` fails loudly with the no-api-key error; a cache
hit, however, returns the cached script without any credential. -/
theorem no_credential_no_cache_raises (env : VisionEnv)
    (hcache : env.cached_script = none)
    (hg : client_init env.gemini_key = false)
    (ho : client_init env.openai_key = false) :
    analyze_and_script env = .error .noApiKey := by
  simp [analyze_and_script, hcache, hg, ho]

def vision_env_nothing : VisionEnv :=
  { openai_key := none, gemini_key := none, cached_script := none
    gemini_result := .error "unused", openai_result := .error "unused" }

theorem no_credential_no_cache_raises_witness :
    vision_env_nothing.cached_script = none ∧
    analyze_and_script vision_env_nothing = .error .noApiKey :=
  ⟨rfl, no_credential_no_cache_raises vision_env_nothing rfl rfl rfl⟩

theorem countP_set_phase (p : TaskPhase → Bool) :
    ∀ (s : List TaskPhase) (i : Nat) (u v : TaskPhase), s[i]? = some u →
      (s.set i v).countP p + (if p u then 1 else 0) =
        s.countP p + (if p v then 1 else 0) := by
  intro s
  induction s with
  | nil => intro i u v h; simp at h
  | cons a t ih =>
      intro i u v h
      cases i with
      | zero =>
          simp only [List.getElem?_cons_zero, Option.some.injEq] at h
          subst h
          simp [List.set, List.countP_cons]
          omega
      | succ j =>
          simp only [List.getElem?_cons_succ] at h
          have := ih j u v h
          simp [List.set, List.countP_cons]
          omega

theorem sem_inFlight_invariant {s : List TaskPhase} (h : SemReachable s) :
    inFlightCount s ≤ semaphore_size := by
  induction h with
  | init n =>
      induction n with
      | zero => decide
      | succ m ihm =>
          simp only [List.replicate_succ, inFlightCount, List.countP_cons] at *
          simpa using ihm
  | step hr hstep ih =>
      cases hstep with
      | start i hi =>
          have hc := countP_set_phase (fun p => p == TaskPhase.inFlight)
            _ i .notStarted .waiting hi
          unfold inFlightCount at *
          simp at hc
          omega
      | acquire i hi hgate =>
          have hc := countP_set_phase (fun p => p == TaskPhase.inFlight)
            _ i .waiting .inFlight hi
          unfold inFlightCount at *
          simp at hc
          omega
      | release i hi =>
          have hc := countP_set_phase (fun p => p == TaskPhase.inFlight)
            _ i .inFlight .done hi
          unfold inFlightCount at *
          simp at hc
          omega

/-- C10: every scheduled clip task must pass the admission gate (the
`acquire` transition is the only way to reach the in-flight phase, and it is
enabled only while fewer than `semaphore_size` tasks hold the gate), so in
every reachable interleaving of the batch at most `semaphore_size = 3` Wan
jobs are simultaneously in flight — and 3 lies within the claimed K = 2–3. -/
theorem semaphore_bounds_in_flight (s : List TaskPhase) (h : SemReachable s) :
    inFlightCount s ≤ semaphore_size ∧ 2 ≤ semaphore_size ∧ semaphore_size ≤ 3 :=
  ⟨sem_inFlight_invariant h, by decide, by decide⟩

theorem semaphore_bounds_in_flight_witness :
    inFlightCount (List.replicate 12 TaskPhase.notStarted) ≤ semaphore_size ∧
    2 ≤ semaphore_size ∧ semaphore_size ≤ 3 :=
  semaphore_bounds_in_flight (List.replicate 12 TaskPhase.notStarted)
    (SemReachable.init 12)
